import Mathlib

/-!
Shallow embedding of the disaster-relief resource-management application
(source files `app.py` and `models.py`): the two persisted record kinds
(camps and victims), the repository operations over them, the resource
distribution engine, victim registration and the report query, together
with theorems checking the specification against this embedding.

SQLite `INTEGER` columns carry arbitrary signed integers (no CHECK
constraints are declared in `init_db`), so numeric columns are modelled
as `Int`.  The database is modelled as two lists of rows plus the
autoincrement counters of the two tables; `fetchone` on a primary-key
equality filter is modelled by `List.find?`.
-/

namespace DisasterRelief

/-- A row of the `camps` table (`models.py`, `init_db`). -/
structure Camp where
  camp_id : Nat
  location : String
  max_capacity : Int
  available_food : Int
  available_medical_kits : Int
  volunteers : Int
  current_occupancy : Int
deriving Repr, DecidableEq

/-- A row of the `victims` table (`models.py`, `init_db`). -/
structure Victim where
  victim_id : Nat
  name : String
  age : Int
  health_condition : String
  assigned_camp_id : Option Nat
  food_distributed : Int
  medical_kits_distributed : Int
deriving Repr, DecidableEq

/-- The persistent store: the two tables and their autoincrement counters. -/
structure DB where
  camps : List Camp
  victims : List Victim
  nextCampId : Nat
  nextVictimId : Nat
deriving Repr, DecidableEq

/-- `Camp.is_full` property (`models.py`): `current_occupancy >= max_capacity`. -/
def Camp.is_full (c : Camp) : Bool :=
  decide (c.current_occupancy ≥ c.max_capacity)

/-- Round half to even on rationals, modelling Python's banker-rounding
`round` applied to the exact value of its argument (the machine float is
idealised as the exact rational it approximates). -/
def roundHalfEven (q : ℚ) : ℤ :=
  if q - ⌊q⌋ = 1 / 2 then (if Even ⌊q⌋ then ⌊q⌋ else ⌊q⌋ + 1) else round q

/-- `Camp.occupancy_percentage` property (`models.py`): `0` when
`max_capacity == 0`, otherwise `round(current_occupancy / max_capacity * 100, 1)`,
i.e. the percentage rounded to one decimal place. -/
def Camp.occupancy_percentage (c : Camp) : ℚ :=
  if c.max_capacity = 0 then 0
  else (roundHalfEven ((c.current_occupancy : ℚ) / (c.max_capacity : ℚ) * 100 * 10) : ℚ) / 10

/-- `Victim.is_critical` property (`models.py`): `health_condition == "critical"`. -/
def Victim.is_critical (v : Victim) : Bool :=
  decide (v.health_condition = "critical")

/-- `get_all_camps` (`models.py`): all camp rows ordered by `camp_id`.
Rows are stored in insertion order, which coincides with ascending
autoincrement ids. -/
def get_all_camps (db : DB) : List Camp :=
  db.camps

/-- `get_camp` (`models.py`): `fetchone` on `camp_id`, `None` when absent. -/
def get_camp (db : DB) (camp_id : Nat) : Option Camp :=
  db.camps.find? (fun c => c.camp_id == camp_id)

/-- `get_available_camps` (`models.py`): camps with
`current_occupancy < max_capacity`. -/
def get_available_camps (db : DB) : List Camp :=
  db.camps.filter (fun c => decide (c.current_occupancy < c.max_capacity))

/-- `create_camp` (`models.py`): INSERT of a new camp row; `current_occupancy`
takes its column default `0`; returns the fresh autoincrement id. -/
def create_camp (db : DB) (location : String)
    (max_capacity available_food available_medical_kits volunteers : Int) :
    Nat × DB :=
  let cid := db.nextCampId
  (cid,
   { db with
     camps := db.camps ++
       [{ camp_id := cid, location := location, max_capacity := max_capacity,
          available_food := available_food,
          available_medical_kits := available_medical_kits,
          volunteers := volunteers, current_occupancy := 0 }],
     nextCampId := cid + 1 })

/-- `update_camp_resources` (`models.py`): one UPDATE statement adding the
signed deltas to `available_food`, `available_medical_kits` and
`current_occupancy` of every row whose `camp_id` matches (at most one, the
column being the primary key). -/
def update_camp_resources (db : DB) (camp_id : Nat)
    (food_delta kits_delta occupancy_delta : Int) : DB :=
  { db with
    camps := db.camps.map (fun c =>
      if c.camp_id == camp_id then
        { c with
          available_food := c.available_food + food_delta,
          available_medical_kits := c.available_medical_kits + kits_delta,
          current_occupancy := c.current_occupancy + occupancy_delta }
      else c) }

/-- `get_all_victims` (`models.py`): all victim rows ordered by `victim_id`. -/
def get_all_victims (db : DB) : List Victim :=
  db.victims

/-- `get_victim` (`models.py`): `fetchone` on `victim_id`, `None` when absent. -/
def get_victim (db : DB) (victim_id : Nat) : Option Victim :=
  db.victims.find? (fun v => v.victim_id == victim_id)

/-- `get_victims_for_camp` (`models.py`): victims whose `assigned_camp_id`
matches. -/
def get_victims_for_camp (db : DB) (camp_id : Nat) : List Victim :=
  db.victims.filter (fun v => v.assigned_camp_id == some camp_id)

/-- `create_victim` (`models.py`): INSERT of a new victim row; the two
distribution counters take their column defaults `0`; returns the fresh
autoincrement id. -/
def create_victim (db : DB) (name : String) (age : Int)
    (health_condition : String) (camp_id : Nat) : Nat × DB :=
  let vid := db.nextVictimId
  (vid,
   { db with
     victims := db.victims ++
       [{ victim_id := vid, name := name, age := age,
          health_condition := health_condition,
          assigned_camp_id := some camp_id,
          food_distributed := 0, medical_kits_distributed := 0 }],
     nextVictimId := vid + 1 })

/-- `update_victim_distributions` (`models.py`): one UPDATE statement adding
the signed deltas to `food_distributed` and `medical_kits_distributed` of
every row whose `victim_id` matches. -/
def update_victim_distributions (db : DB) (victim_id : Nat)
    (food_delta kits_delta : Int) : DB :=
  { db with
    victims := db.victims.map (fun v =>
      if v.victim_id == victim_id then
        { v with
          food_distributed := v.food_distributed + food_delta,
          medical_kits_distributed := v.medical_kits_distributed + kits_delta }
      else v) }

/-- Warning string emitted when the camp has no food (`app.py`). -/
def noFoodWarning : String :=
  "No food packets available in this camp."

/-- Warning string emitted when a critical victim finds no kits (`app.py`). -/
def criticalShortageWarning : String :=
  "CRITICAL victim — no medical kits available in camp!"

/-- `distribute_resources` (`app.py`): decide the food grant and, by the
priority rule, the kit grant from the supplied camp snapshot, then apply the
negated grants to the camp row and the grants to the victim row.  Returns
`(food_given, kits_given, warnings, updated store)`. -/
def distribute_resources (victim : Victim) (camp : Camp) (db : DB) :
    Int × Int × List String × DB :=
  let foodPart : Int × List String :=
    if camp.available_food > 0 then (1, []) else (0, [noFoodWarning])
  let kitsPart : Int × List String :=
    if victim.is_critical then
      if camp.available_medical_kits > 0 then (1, foodPart.2)
      else (0, foodPart.2 ++ [criticalShortageWarning])
    else
      if camp.available_medical_kits ≥ 2 then (1, foodPart.2)
      else (0, foodPart.2)
  let db1 := update_camp_resources db camp.camp_id (-foodPart.1) (-kitsPart.1) 0
  let db2 := update_victim_distributions db1 victim.victim_id foodPart.1 kitsPart.1
  (foodPart.1, kitsPart.1, kitsPart.2, db2)

/-- Outcome of the registration handler: a flashed validation failure, or a
success carrying the new victim id and the distribution result. -/
inductive RegisterOutcome where
  | failure (message : String)
  | success (victim_id : Nat) (food_given kits_given : Int) (warnings : List String)
deriving Repr, DecidableEq

/-- The POST branch of `register_victim` (`app.py`) after successful form
parsing: validate name, age and health condition, check the camp exists and
is not full; then increment occupancy, insert the victim row, re-fetch both
records and run one distribution.  The final match arm is unreachable: a
row just inserted (resp. the camp found above) is always re-fetched
successfully. -/
def register_victim (db : DB) (name : String) (age : Int)
    (health_condition : String) (camp_id : Nat) : RegisterOutcome × DB :=
  if name = "" then
    (.failure "Name cannot be empty.", db)
  else if age ≤ 0 ∨ age > 120 then
    (.failure "Please enter a valid age (1-120).", db)
  else if health_condition ≠ "normal" ∧ health_condition ≠ "critical" then
    (.failure "Health condition must be normal or critical.", db)
  else
    match get_camp db camp_id with
    | none => (.failure "Selected camp does not exist.", db)
    | some camp =>
      if camp.is_full then
        (.failure "Camp is full.", db)
      else
        let db1 := update_camp_resources db camp_id 0 0 1
        let created := create_victim db1 name age health_condition camp_id
        match get_victim created.2 created.1, get_camp created.2 camp_id with
        | some victim, some camp2 =>
          let r := distribute_resources victim camp2 created.2
          (.success created.1 r.1 r.2.1 r.2.2.1, r.2.2.2)
        | _, _ => (.failure "unreachable", db)

/-- The `do_distribute` route (`app.py`): look up the victim, then the camp
it is assigned to, and run one distribution; `none` models the redirect
taken when either lookup fails. -/
def do_distribute (db : DB) (victim_id : Nat) :
    Option (Int × Int × List String) × DB :=
  match get_victim db victim_id with
  | none => (none, db)
  | some victim =>
    match victim.assigned_camp_id with
    | none => (none, db)
    | some cid =>
      match get_camp db cid with
      | none => (none, db)
      | some camp =>
        let r := distribute_resources victim camp db
        (some (r.1, r.2.1, r.2.2.1), r.2.2.2)

/-- One comparison step of Python's `max` with key `current_occupancy`: the
later element replaces the running maximum only when strictly greater, so
ties keep the earlier element. -/
def occStep (acc x : Camp) : Camp :=
  if x.current_occupancy > acc.current_occupancy then x else acc

/-- Python's `max(camps, key=lambda c: c.current_occupancy)`: the first
element attaining the maximal occupancy. -/
def max_by_occupancy (camps : List Camp) : Option Camp :=
  match camps with
  | [] => none
  | c :: rest => some (rest.foldl occStep c)

/-- The aggregates computed by the `report` route (`app.py`). -/
structure ReportData where
  total_camps : Nat
  total_victims : Nat
  total_food : Int
  total_medical_kits : Int
  critical_victims : Nat
  busiest_camp : Option Camp
deriving Repr, DecidableEq

/-- The `report` route (`app.py`): aggregates recomputed by scanning all
rows at query time. -/
def report (db : DB) : ReportData :=
  let camps := get_all_camps db
  let victims := get_all_victims db
  { total_camps := camps.length
    total_victims := victims.length
    total_food := (victims.map (fun v => v.food_distributed)).sum
    total_medical_kits := (victims.map (fun v => v.medical_kits_distributed)).sum
    critical_victims := (victims.filter (fun v => v.is_critical)).length
    busiest_camp := max_by_occupancy camps }

/-! ### Helper lemmas about lookups and updates -/

/-- A key-preserving conditional rewrite of a list commutes with `find?` on
the rewritten key: the row found afterwards is the rewrite of the row found
before. -/
theorem find?_map_update {α : Type} (key : α → Nat) (k : Nat) (f : α → α)
    (hf : ∀ a, key (f a) = key a) (l : List α) :
    (l.map (fun a => if key a == k then f a else a)).find? (fun a => key a == k)
      = (l.find? (fun a => key a == k)).map f := by
  induction l with
  | nil => rfl
  | cons a t ih =>
    by_cases h : key a = k
    · rw [List.map_cons, if_pos (by simpa using h),
          List.find?_cons_of_pos _ (by simpa [hf] using h),
          List.find?_cons_of_pos _ (by simpa using h)]
      rfl
    · rw [List.map_cons, if_neg (by simpa using h),
          List.find?_cons_of_neg _ (by simpa using h),
          List.find?_cons_of_neg _ (by simpa using h), ih]

/-- A key-preserving conditional rewrite of a list leaves `find?` on any
other key unchanged. -/
theorem find?_map_update_ne {α : Type} (key : α → Nat) (k k' : Nat) (hk : k' ≠ k)
    (f : α → α) (hf : ∀ a, key (f a) = key a) (l : List α) :
    (l.map (fun a => if key a == k then f a else a)).find? (fun a => key a == k')
      = l.find? (fun a => key a == k') := by
  induction l with
  | nil => rfl
  | cons a t ih =>
    by_cases h : key a = k
    · have h' : ¬ key a = k' := fun hh => hk (hh ▸ h ▸ rfl)
      rw [List.map_cons, if_pos (by simpa using h),
          List.find?_cons_of_neg _ (by simpa [hf] using h'),
          List.find?_cons_of_neg _ (by simpa using h'), ih]
    · by_cases h' : key a = k'
      · rw [List.map_cons, if_neg (by simpa using h),
            List.find?_cons_of_pos _ (by simpa using h'),
            List.find?_cons_of_pos _ (by simpa using h')]
      · rw [List.map_cons, if_neg (by simpa using h),
            List.find?_cons_of_neg _ (by simpa using h'),
            List.find?_cons_of_neg _ (by simpa using h'), ih]

/-- Looking up the updated camp id after `update_camp_resources` returns the
old row with the deltas added. -/
theorem get_camp_update_self (db : DB) (cid : Nat) (fd kd od : Int) :
    get_camp (update_camp_resources db cid fd kd od) cid
      = (get_camp db cid).map (fun c =>
          { c with
            available_food := c.available_food + fd,
            available_medical_kits := c.available_medical_kits + kd,
            current_occupancy := c.current_occupancy + od }) := by
  simp only [get_camp, update_camp_resources]
  exact find?_map_update (fun c => c.camp_id) cid
    (fun c =>
      { c with
        available_food := c.available_food + fd,
        available_medical_kits := c.available_medical_kits + kd,
        current_occupancy := c.current_occupancy + od })
    (fun _ => rfl) db.camps

/-- Looking up any other camp id after `update_camp_resources` is unchanged. -/
theorem get_camp_update_ne (db : DB) (cid cid' : Nat) (h : cid' ≠ cid)
    (fd kd od : Int) :
    get_camp (update_camp_resources db cid fd kd od) cid' = get_camp db cid' := by
  simp only [get_camp, update_camp_resources]
  exact find?_map_update_ne (fun c => c.camp_id) cid cid' h
    (fun c =>
      { c with
        available_food := c.available_food + fd,
        available_medical_kits := c.available_medical_kits + kd,
        current_occupancy := c.current_occupancy + od })
    (fun _ => rfl) db.camps

/-- Looking up the updated victim id after `update_victim_distributions`
returns the old row with the deltas added. -/
theorem get_victim_update_self (db : DB) (vid : Nat) (fd kd : Int) :
    get_victim (update_victim_distributions db vid fd kd) vid
      = (get_victim db vid).map (fun v =>
          { v with
            food_distributed := v.food_distributed + fd,
            medical_kits_distributed := v.medical_kits_distributed + kd }) := by
  simp only [get_victim, update_victim_distributions]
  exact find?_map_update (fun v => v.victim_id) vid
    (fun v =>
      { v with
        food_distributed := v.food_distributed + fd,
        medical_kits_distributed := v.medical_kits_distributed + kd })
    (fun _ => rfl) db.victims

/-- A camp update with all-zero deltas rewrites every row to itself. -/
theorem map_update_zero_camp (cid : Nat) (l : List Camp) :
    (l.map (fun c => if c.camp_id == cid then
      { c with
        available_food := c.available_food + 0,
        available_medical_kits := c.available_medical_kits + 0,
        current_occupancy := c.current_occupancy + 0 } else c)) = l := by
  induction l with
  | nil => rfl
  | cons a t ih =>
    rw [List.map_cons, ih]
    by_cases h : a.camp_id = cid
    · cases a
      simp
    · simp [h]

/-- `update_camp_resources` with all-zero deltas is the identity. -/
theorem update_camp_resources_zero (db : DB) (cid : Nat) :
    update_camp_resources db cid 0 0 0 = db := by
  show { db with camps := _ } = db
  rw [map_update_zero_camp]

/-- A victim update with all-zero deltas rewrites every row to itself. -/
theorem map_update_zero_victim (vid : Nat) (l : List Victim) :
    (l.map (fun v => if v.victim_id == vid then
      { v with
        food_distributed := v.food_distributed + 0,
        medical_kits_distributed := v.medical_kits_distributed + 0 } else v)) = l := by
  induction l with
  | nil => rfl
  | cons a t ih =>
    rw [List.map_cons, ih]
    by_cases h : a.victim_id = vid
    · cases a
      simp
    · simp [h]

/-- `update_victim_distributions` with all-zero deltas is the identity. -/
theorem update_victim_distributions_zero (db : DB) (vid : Nat) :
    update_victim_distributions db vid 0 0 = db := by
  show { db with victims := _ } = db
  rw [map_update_zero_victim]

/-! ### Concrete fixtures used by witnesses -/

/-- A concrete camp used to exercise the theorems on closed inputs. -/
def campA : Camp :=
  { camp_id := 1, location := "Riverside", max_capacity := 5, available_food := 1,
    available_medical_kits := 1, volunteers := 2, current_occupancy := 0 }

/-- A concrete critical victim assigned to `campA`. -/
def victimA : Victim :=
  { victim_id := 1, name := "Ann", age := 30, health_condition := "critical",
    assigned_camp_id := some 1, food_distributed := 0, medical_kits_distributed := 0 }

/-- A concrete store holding `campA` and `victimA`. -/
def dbA : DB :=
  { camps := [campA], victims := [victimA], nextCampId := 2, nextVictimId := 2 }

/-! ### Claim theorems -/

/-- C1: in every distribution invocation the medical-kit grant follows the
priority rule: a critical victim gets exactly 1 kit when the camp has kits
available and otherwise 0 kits together with the critical-shortage warning;
a normal victim gets exactly 1 kit when at least 2 kits remain and otherwise
0 kits, and the critical-shortage warning is never emitted for a normal
victim. -/
theorem distribute_kits_priority (victim : Victim) (camp : Camp) (db : DB)
    (food_given kits_given : Int) (warnings : List String) (db' : DB)
    (heq : distribute_resources victim camp db = (food_given, kits_given, warnings, db')) :
    (victim.is_critical = true →
      (camp.available_medical_kits > 0 →
        kits_given = 1 ∧ criticalShortageWarning ∉ warnings)
      ∧ (¬ camp.available_medical_kits > 0 →
        kits_given = 0 ∧ criticalShortageWarning ∈ warnings))
    ∧ (victim.is_critical = false →
      (camp.available_medical_kits ≥ 2 → kits_given = 1)
      ∧ (¬ camp.available_medical_kits ≥ 2 → kits_given = 0)
      ∧ criticalShortageWarning ∉ warnings) := by
  simp only [distribute_resources] at heq
  split_ifs at heq with h1 h2 h3 <;>
    (simp only [Prod.mk.injEq] at heq
     obtain ⟨e1, e2, e3, e4⟩ := heq
     subst e1
     subst e2
     subst e3) <;>
    constructor <;>
    intro hcrit <;>
    simp_all [noFoodWarning, criticalShortageWarning]

/-- C1 witness: instantiated at the concrete critical victim `victimA` and
camp `campA` (one kit in stock). -/
theorem distribute_kits_priority_witness :
    (victimA.is_critical = true →
      (campA.available_medical_kits > 0 →
        (1 : Int) = 1 ∧ criticalShortageWarning ∉ ([] : List String))
      ∧ (¬ campA.available_medical_kits > 0 →
        (1 : Int) = 0 ∧ criticalShortageWarning ∈ ([] : List String)))
    ∧ (victimA.is_critical = false →
      (campA.available_medical_kits ≥ 2 → (1 : Int) = 1)
      ∧ (¬ campA.available_medical_kits ≥ 2 → (1 : Int) = 0)
      ∧ criticalShortageWarning ∉ ([] : List String)) :=
  distribute_kits_priority victimA campA dbA 1 1 []
    (distribute_resources victimA campA dbA).2.2.2 rfl

/-- C2: in every distribution invocation exactly 1 food unit is granted iff
the camp has food available; when the camp has zero food the grant is 0 and
the no-food warning is present in the returned warnings (the invocation
still returns a result rather than failing). -/
theorem distribute_food_rule (victim : Victim) (camp : Camp) (db : DB)
    (food_given kits_given : Int) (warnings : List String) (db' : DB)
    (heq : distribute_resources victim camp db = (food_given, kits_given, warnings, db')) :
    (food_given = 1 ↔ camp.available_food > 0)
    ∧ (camp.available_food = 0 → food_given = 0 ∧ noFoodWarning ∈ warnings) := by
  simp only [distribute_resources] at heq
  split_ifs at heq with h1 h2 h3 <;>
    (simp only [Prod.mk.injEq] at heq
     obtain ⟨e1, e2, e3, e4⟩ := heq
     subst e1
     subst e2
     subst e3) <;>
    constructor <;>
    simp_all <;>
    omega

/-- C2 witness: instantiated at `victimA` and `campA` (one food unit in
stock, so the grant is 1). -/
theorem distribute_food_rule_witness :
    ((1 : Int) = 1 ↔ campA.available_food > 0)
    ∧ (campA.available_food = 0 → (1 : Int) = 0 ∧ noFoodWarning ∈ ([] : List String)) :=
  distribute_food_rule victimA campA dbA 1 1 []
    (distribute_resources victimA campA dbA).2.2.2 rfl

/-- Updating victim rows leaves camp lookups unchanged. -/
theorem get_camp_update_victim (db : DB) (vid : Nat) (fd kd : Int) (cid : Nat) :
    get_camp (update_victim_distributions db vid fd kd) cid = get_camp db cid := rfl

/-- Updating camp rows leaves victim lookups unchanged. -/
theorem get_victim_update_camp (db : DB) (cid : Nat) (fd kd od : Int) (vid : Nat) :
    get_victim (update_camp_resources db cid fd kd od) vid = get_victim db vid := rfl

/-- The store returned by `distribute_resources` is the input store after the
camp update with the negated grants followed by the victim update with the
grants. -/
theorem distribute_resources_db_eq (victim : Victim) (camp : Camp) (db : DB) :
    (distribute_resources victim camp db).2.2.2
      = update_victim_distributions
          (update_camp_resources db camp.camp_id
            (-(distribute_resources victim camp db).1)
            (-(distribute_resources victim camp db).2.1) 0)
          victim.victim_id
          (distribute_resources victim camp db).1
          (distribute_resources victim camp db).2.1 := rfl

/-- Each grant computed by `distribute_resources` is `0` or `1`. -/
theorem distribute_resources_grants_01 (victim : Victim) (camp : Camp) (db : DB) :
    ((distribute_resources victim camp db).1 = 0 ∨ (distribute_resources victim camp db).1 = 1)
    ∧ ((distribute_resources victim camp db).2.1 = 0
        ∨ (distribute_resources victim camp db).2.1 = 1) := by
  simp only [distribute_resources]
  split_ifs <;> simp

/-- C4: every distribution invocation, after computing the non-negative
grants, subtracts exactly those amounts from the camp row and adds exactly
those amounts to the victim row. -/
theorem distribute_applies_deltas (victim : Victim) (camp : Camp) (db : DB)
    (food_given kits_given : Int) (warnings : List String) (db' : DB)
    (c0 : Camp) (v0 : Victim)
    (heq : distribute_resources victim camp db = (food_given, kits_given, warnings, db'))
    (hc : get_camp db camp.camp_id = some c0)
    (hv : get_victim db victim.victim_id = some v0) :
    0 ≤ food_given ∧ 0 ≤ kits_given
    ∧ (∃ c1, get_camp db' camp.camp_id = some c1
        ∧ c1.available_food = c0.available_food - food_given
        ∧ c1.available_medical_kits = c0.available_medical_kits - kits_given)
    ∧ (∃ v1, get_victim db' victim.victim_id = some v1
        ∧ v1.food_distributed = v0.food_distributed + food_given
        ∧ v1.medical_kits_distributed = v0.medical_kits_distributed + kits_given) := by
  have e1 : (distribute_resources victim camp db).1 = food_given := by rw [heq]
  have e2 : (distribute_resources victim camp db).2.1 = kits_given := by rw [heq]
  have e4 : (distribute_resources victim camp db).2.2.2 = db' := by rw [heq]
  have h01 := distribute_resources_grants_01 victim camp db
  rw [e1, e2] at h01
  have hdb : db' = update_victim_distributions
      (update_camp_resources db camp.camp_id (-food_given) (-kits_given) 0)
      victim.victim_id food_given kits_given := by
    rw [← e1, ← e2, ← e4]
    exact distribute_resources_db_eq victim camp db
  refine ⟨by omega, by omega, ?_, ?_⟩
  · have hg : get_camp db' camp.camp_id
        = get_camp (update_camp_resources db camp.camp_id (-food_given) (-kits_given) 0)
            camp.camp_id := by
      rw [hdb]
      exact get_camp_update_victim _ _ _ _ _
    rw [get_camp_update_self, hc, Option.map_some'] at hg
    exact ⟨_, hg, by simp [sub_eq_add_neg], by simp [sub_eq_add_neg]⟩
  · have hg : get_victim db' victim.victim_id
      = (get_victim db victim.victim_id).map (fun v =>
          { v with
            food_distributed := v.food_distributed + food_given,
            medical_kits_distributed := v.medical_kits_distributed + kits_given }) := by
      rw [hdb, get_victim_update_self, get_victim_update_camp]
    rw [hv, Option.map_some'] at hg
    exact ⟨_, hg, rfl, rfl⟩

/-- C4 witness: instantiated at `victimA`, `campA` and `dbA`, where both
grants are 1. -/
theorem distribute_applies_deltas_witness :
    0 ≤ (1 : Int) ∧ 0 ≤ (1 : Int)
    ∧ (∃ c1, get_camp (distribute_resources victimA campA dbA).2.2.2 campA.camp_id = some c1
        ∧ c1.available_food = campA.available_food - 1
        ∧ c1.available_medical_kits = campA.available_medical_kits - 1)
    ∧ (∃ v1, get_victim (distribute_resources victimA campA dbA).2.2.2 victimA.victim_id = some v1
        ∧ v1.food_distributed = victimA.food_distributed + 1
        ∧ v1.medical_kits_distributed = victimA.medical_kits_distributed + 1) :=
  distribute_applies_deltas victimA campA dbA 1 1 []
    (distribute_resources victimA campA dbA).2.2.2 campA victimA rfl rfl rfl

/-- C9: every distribution invocation conserves each resource: the sum of
the camp row's stock and the victim row's cumulative counter is unchanged,
for food and for medical kits. -/
theorem distribute_conserves_stock (victim : Victim) (camp : Camp) (db : DB)
    (food_given kits_given : Int) (warnings : List String) (db' : DB)
    (c0 : Camp) (v0 : Victim)
    (heq : distribute_resources victim camp db = (food_given, kits_given, warnings, db'))
    (hc : get_camp db camp.camp_id = some c0)
    (hv : get_victim db victim.victim_id = some v0) :
    ∃ c1 v1, get_camp db' camp.camp_id = some c1
      ∧ get_victim db' victim.victim_id = some v1
      ∧ c1.available_food + v1.food_distributed
          = c0.available_food + v0.food_distributed
      ∧ c1.available_medical_kits + v1.medical_kits_distributed
          = c0.available_medical_kits + v0.medical_kits_distributed := by
  have e1 : (distribute_resources victim camp db).1 = food_given := by rw [heq]
  have e2 : (distribute_resources victim camp db).2.1 = kits_given := by rw [heq]
  have e4 : (distribute_resources victim camp db).2.2.2 = db' := by rw [heq]
  have hdb : db' = update_victim_distributions
      (update_camp_resources db camp.camp_id (-food_given) (-kits_given) 0)
      victim.victim_id food_given kits_given := by
    rw [← e1, ← e2, ← e4]
    exact distribute_resources_db_eq victim camp db
  have hgc : get_camp db' camp.camp_id
      = get_camp (update_camp_resources db camp.camp_id (-food_given) (-kits_given) 0)
          camp.camp_id := by
    rw [hdb]
    exact get_camp_update_victim _ _ _ _ _
  rw [get_camp_update_self, hc, Option.map_some'] at hgc
  have hgv : get_victim db' victim.victim_id
      = (get_victim db victim.victim_id).map (fun v =>
          { v with
            food_distributed := v.food_distributed + food_given,
            medical_kits_distributed := v.medical_kits_distributed + kits_given }) := by
    rw [hdb, get_victim_update_self, get_victim_update_camp]
  rw [hv, Option.map_some'] at hgv
  refine ⟨_, _, hgc, hgv, ?_, ?_⟩ <;> simp <;> ring

/-- C9 witness: instantiated at `victimA`, `campA` and `dbA`. -/
theorem distribute_conserves_stock_witness :
    ∃ c1 v1, get_camp (distribute_resources victimA campA dbA).2.2.2 campA.camp_id = some c1
      ∧ get_victim (distribute_resources victimA campA dbA).2.2.2 victimA.victim_id = some v1
      ∧ c1.available_food + v1.food_distributed
          = campA.available_food + victimA.food_distributed
      ∧ c1.available_medical_kits + v1.medical_kits_distributed
          = campA.available_medical_kits + victimA.medical_kits_distributed :=
  distribute_conserves_stock victimA campA dbA 1 1 []
    (distribute_resources victimA campA dbA).2.2.2 campA victimA rfl rfl rfl

/-- C5: the camp delta-update adds the signed deltas exactly, with no
clamping: the updated row's three counters equal the old values plus the
deltas, for arbitrary (possibly negative) deltas and results. -/
theorem update_camp_resources_exact (db : DB) (cid : Nat) (fd kd od : Int) (c0 : Camp)
    (hc : get_camp db cid = some c0) :
    ∃ c1, get_camp (update_camp_resources db cid fd kd od) cid = some c1
      ∧ c1.available_food = c0.available_food + fd
      ∧ c1.available_medical_kits = c0.available_medical_kits + kd
      ∧ c1.current_occupancy = c0.current_occupancy + od := by
  have h := get_camp_update_self db cid fd kd od
  rw [hc, Option.map_some'] at h
  exact ⟨_, h, rfl, rfl, rfl⟩

/-- A concrete empty camp used to exercise negative results of the
delta-update. -/
def campB : Camp :=
  { camp_id := 3, location := "Hillside", max_capacity := 4, available_food := 0,
    available_medical_kits := 0, volunteers := 0, current_occupancy := 0 }

/-- A concrete store holding only `campB`. -/
def dbB : DB :=
  { camps := [campB], victims := [], nextCampId := 4, nextVictimId := 1 }

/-- C5 witness: negative deltas on an empty camp drive all three counters
negative, with no clamping. -/
theorem update_camp_resources_exact_witness :
    ∃ c1, get_camp (update_camp_resources dbB 3 (-5) (-7) (-1)) 3 = some c1
      ∧ c1.available_food = campB.available_food + (-5)
      ∧ c1.available_medical_kits = campB.available_medical_kits + (-7)
      ∧ c1.current_occupancy = campB.current_occupancy + (-1) :=
  update_camp_resources_exact dbB 3 (-5) (-7) (-1) campB rfl

/-- C10: the camp delta-update touches only the three counter fields of the
rows with the given id: victims and the id counters are unchanged, every
camp row with a different id is unchanged in place, camp lookups of other
ids are unchanged, the matched row keeps its identity, location, capacity
and volunteers, and when no camp has the id the whole store is unchanged. -/
theorem update_camp_resources_frame (db : DB) (cid : Nat) (fd kd od : Int) :
    (update_camp_resources db cid fd kd od).victims = db.victims
    ∧ (update_camp_resources db cid fd kd od).nextCampId = db.nextCampId
    ∧ (update_camp_resources db cid fd kd od).nextVictimId = db.nextVictimId
    ∧ (∀ i : Nat, ∀ c : Camp, db.camps[i]? = some c → c.camp_id ≠ cid →
        (update_camp_resources db cid fd kd od).camps[i]? = some c)
    ∧ (∀ cid' : Nat, cid' ≠ cid →
        get_camp (update_camp_resources db cid fd kd od) cid' = get_camp db cid')
    ∧ (∀ c0 : Camp, get_camp db cid = some c0 →
        ∃ c1, get_camp (update_camp_resources db cid fd kd od) cid = some c1
          ∧ c1.camp_id = c0.camp_id ∧ c1.location = c0.location
          ∧ c1.max_capacity = c0.max_capacity ∧ c1.volunteers = c0.volunteers
          ∧ c1.available_food = c0.available_food + fd
          ∧ c1.available_medical_kits = c0.available_medical_kits + kd
          ∧ c1.current_occupancy = c0.current_occupancy + od)
    ∧ (get_camp db cid = none → update_camp_resources db cid fd kd od = db) := by
  refine ⟨rfl, rfl, rfl, ?_, ?_, ?_, ?_⟩
  · intro i c hi hne
    show (db.camps.map _)[i]? = some c
    rw [List.getElem?_map, hi, Option.map_some']
    have : ¬ (c.camp_id == cid) = true := by simpa using hne
    rw [if_neg this]
  · intro cid' h
    exact get_camp_update_ne db cid cid' h fd kd od
  · intro c0 hc
    have h := get_camp_update_self db cid fd kd od
    rw [hc, Option.map_some'] at h
    exact ⟨_, h, rfl, rfl, rfl, rfl, rfl, rfl, rfl⟩
  · intro hnone
    have hall : ∀ c ∈ db.camps, ¬ (c.camp_id == cid) = true :=
      List.find?_eq_none.mp hnone
    have h2 : ∀ c ∈ db.camps, (if c.camp_id == cid then
        { c with
          available_food := c.available_food + fd,
          available_medical_kits := c.available_medical_kits + kd,
          current_occupancy := c.current_occupancy + od } else c) = id c := by
      intro c hcmem
      rw [if_neg (hall c hcmem)]
      rfl
    show { db with camps := _ } = db
    rw [(List.map_congr_left h2).trans (List.map_id db.camps)]

/-- C10 witness: instantiated twice on concrete stores, once on the present
camp id 1 of `dbA` and once on the absent camp id 9 of `dbA`. -/
theorem update_camp_resources_frame_witness :
    (update_camp_resources dbA 1 2 3 4).victims = dbA.victims
    ∧ get_camp (update_camp_resources dbA 1 2 3 4) 9 = get_camp dbA 9
    ∧ (∃ c1, get_camp (update_camp_resources dbA 1 2 3 4) 1 = some c1
        ∧ c1.camp_id = campA.camp_id ∧ c1.location = campA.location
        ∧ c1.max_capacity = campA.max_capacity ∧ c1.volunteers = campA.volunteers
        ∧ c1.available_food = campA.available_food + 2
        ∧ c1.available_medical_kits = campA.available_medical_kits + 3
        ∧ c1.current_occupancy = campA.current_occupancy + 4)
    ∧ (update_camp_resources dbA 9 2 3 4).camps[0]? = some campA
    ∧ update_camp_resources dbA 9 2 3 4 = dbA := by
  obtain ⟨h1, _, _, _, h5, h6, _⟩ := update_camp_resources_frame dbA 1 2 3 4
  obtain ⟨_, _, _, k4, _, _, k7⟩ := update_camp_resources_frame dbA 9 2 3 4
  exact ⟨h1, h5 9 (by decide), h6 campA rfl,
    k4 0 campA rfl (by decide), k7 rfl⟩

/-- A concrete camp at full occupancy. -/
def campC : Camp :=
  { camp_id := 5, location := "Lakeside", max_capacity := 2, available_food := 9,
    available_medical_kits := 9, volunteers := 1, current_occupancy := 2 }

/-- A concrete store holding only the full camp `campC`. -/
def dbC : DB :=
  { camps := [campC], victims := [], nextCampId := 6, nextVictimId := 1 }

/-- C6: registering a victim into a camp whose occupancy equals its capacity
is rejected before any record is created: the handler returns a failure and
the store is unchanged, so no victim row is inserted, the occupancy is
unchanged and no distribution occurs. -/
theorem register_rejects_full_camp (db : DB) (name : String) (age : Int)
    (health_condition : String) (cid : Nat) (camp : Camp)
    (hc : get_camp db cid = some camp)
    (hfull : camp.current_occupancy = camp.max_capacity) :
    ∃ msg, register_victim db name age health_condition cid
      = (.failure msg, db) := by
  unfold register_victim
  by_cases h1 : name = ""
  · rw [if_pos h1]
    exact ⟨_, rfl⟩
  rw [if_neg h1]
  by_cases h2 : age ≤ 0 ∨ age > 120
  · rw [if_pos h2]
    exact ⟨_, rfl⟩
  rw [if_neg h2]
  by_cases h3 : health_condition ≠ "normal" ∧ health_condition ≠ "critical"
  · rw [if_pos h3]
    exact ⟨_, rfl⟩
  rw [if_neg h3]
  simp only [hc]
  have hf : camp.is_full = true := by
    simp [Camp.is_full, hfull]
  rw [if_pos hf]
  exact ⟨_, rfl⟩

/-- C6 witness: registering into the full camp `campC` is rejected with the
store unchanged. -/
theorem register_rejects_full_camp_witness :
    ∃ msg, register_victim dbC "Bob" 40 "normal" 5 = (.failure msg, dbC) :=
  register_rejects_full_camp dbC "Bob" 40 "normal" 5 campC rfl rfl

/-- A camp exhibiting the rounding of `occupancy_percentage`: occupancy 1 of
capacity 3. -/
def campRound : Camp :=
  { camp_id := 7, location := "Delta", max_capacity := 3, available_food := 0,
    available_medical_kits := 0, volunteers := 0, current_occupancy := 1 }

/-- C7 counterexample: `occupancy_percentage` rounds to one decimal place,
so at occupancy 1 of capacity 3 it returns 33.3, not the exact value
100/3 that the claim asserts. -/
theorem occupancy_percentage_not_exact :
    Camp.occupancy_percentage campRound
      ≠ (campRound.current_occupancy : ℚ) / (campRound.max_capacity : ℚ) * 100 := by
  have hfloor : ⌊(1000 / 3 : ℚ)⌋ = 333 := by
    rw [Int.floor_eq_iff]
    norm_num
  have hfloor2 : ⌊(1000 / 3 : ℚ) + 1 / 2⌋ = 333 := by
    rw [Int.floor_eq_iff]
    norm_num
  have hround : roundHalfEven (1000 / 3) = 333 := by
    unfold roundHalfEven
    rw [hfloor, if_neg (by norm_num), round_eq, hfloor2]
  have harg : (campRound.current_occupancy : ℚ) / (campRound.max_capacity : ℚ) * 100 * 10
      = 1000 / 3 := by
    norm_num [campRound]
  unfold Camp.occupancy_percentage
  rw [if_neg (by norm_num [campRound] : ¬ campRound.max_capacity = 0), harg, hround]
  norm_num [campRound]

/-- Rounding half to even differs from its argument by at most 1/2. -/
theorem abs_roundHalfEven_sub_le (q : ℚ) : |(roundHalfEven q : ℚ) - q| ≤ 1 / 2 := by
  unfold roundHalfEven
  by_cases h : q - ⌊q⌋ = 1 / 2
  · by_cases he : Even ⌊q⌋
    · rw [if_pos h, if_pos he, abs_le]
      constructor <;> linarith
    · rw [if_pos h, if_neg he, abs_le]
      push_cast
      constructor <;> linarith
  · rw [if_neg h, abs_sub_comm]
    exact abs_sub_round q

/-- C7 amended: `is_full` is exactly `current_occupancy ≥ max_capacity`;
`occupancy_percentage` is 0 when `max_capacity` is 0 (no division error) and
otherwise equals `current_occupancy / max_capacity * 100` rounded to one
decimal place: an integer multiple of 1/10 within 1/20 of the exact value. -/
theorem occupancy_percentage_spec (c : Camp) :
    (c.is_full = true ↔ c.current_occupancy ≥ c.max_capacity)
    ∧ (c.max_capacity = 0 → c.occupancy_percentage = 0)
    ∧ (c.max_capacity ≠ 0 →
        ∃ n : ℤ, c.occupancy_percentage = (n : ℚ) / 10
          ∧ |c.occupancy_percentage
              - (c.current_occupancy : ℚ) / (c.max_capacity : ℚ) * 100| ≤ 1 / 20) := by
  refine ⟨by simp [Camp.is_full], ?_, ?_⟩
  · intro h
    simp [Camp.occupancy_percentage, h]
  · intro h
    refine ⟨roundHalfEven ((c.current_occupancy : ℚ) / (c.max_capacity : ℚ) * 100 * 10),
      by simp [Camp.occupancy_percentage, h], ?_⟩
    have hb := abs_roundHalfEven_sub_le
      ((c.current_occupancy : ℚ) / (c.max_capacity : ℚ) * 100 * 10)
    rw [Camp.occupancy_percentage, if_neg h]
    have hrw : (roundHalfEven ((c.current_occupancy : ℚ) / (c.max_capacity : ℚ) * 100 * 10) : ℚ) / 10
        - (c.current_occupancy : ℚ) / (c.max_capacity : ℚ) * 100
        = ((roundHalfEven ((c.current_occupancy : ℚ) / (c.max_capacity : ℚ) * 100 * 10) : ℚ)
            - (c.current_occupancy : ℚ) / (c.max_capacity : ℚ) * 100 * 10) / 10 := by
      ring
    rw [hrw, abs_div]
    have h10 : |(10 : ℚ)| = 10 := by norm_num
    rw [h10]
    linarith

/-- A concrete camp with zero capacity. -/
def campZero : Camp :=
  { camp_id := 8, location := "Depot", max_capacity := 0, available_food := 0,
    available_medical_kits := 0, volunteers := 0, current_occupancy := 0 }

/-- C7 amended witness: instantiated at the zero-capacity camp `campZero`
and at `campA`. -/
theorem occupancy_percentage_spec_witness :
    campZero.occupancy_percentage = 0
    ∧ (∃ n : ℤ, campA.occupancy_percentage = (n : ℚ) / 10
        ∧ |campA.occupancy_percentage
            - (campA.current_occupancy : ℚ) / (campA.max_capacity : ℚ) * 100| ≤ 1 / 20)
    ∧ (campA.is_full = true ↔ campA.current_occupancy ≥ campA.max_capacity) := by
  obtain ⟨hA1, _, hA3⟩ := occupancy_percentage_spec campA
  obtain ⟨_, hZ2, _⟩ := occupancy_percentage_spec campZero
  exact ⟨hZ2 rfl, hA3 (by decide), hA1⟩

/-- The occupancy fold keeps its accumulator or returns a list element. -/
theorem foldl_occStep_mem (l : List Camp) (acc : Camp) :
    l.foldl occStep acc = acc ∨ l.foldl occStep acc ∈ l := by
  induction l generalizing acc with
  | nil => exact Or.inl rfl
  | cons a t ih =>
    rw [List.foldl_cons]
    rcases ih (occStep acc a) with h | h
    · rw [h]
      unfold occStep
      by_cases hgt : a.current_occupancy > acc.current_occupancy
      · rw [if_pos hgt]
        exact Or.inr (List.mem_cons_self a t)
      · rw [if_neg hgt]
        exact Or.inl rfl
    · exact Or.inr (List.mem_cons_of_mem a h)

/-- The occupancy fold dominates its accumulator and every list element. -/
theorem foldl_occStep_ge (l : List Camp) (acc : Camp) :
    acc.current_occupancy ≤ (l.foldl occStep acc).current_occupancy
    ∧ ∀ c ∈ l, c.current_occupancy ≤ (l.foldl occStep acc).current_occupancy := by
  induction l generalizing acc with
  | nil => exact ⟨le_refl _, by simp⟩
  | cons a t ih =>
    rw [List.foldl_cons]
    obtain ⟨h1, h2⟩ := ih (occStep acc a)
    have hstep : acc.current_occupancy ≤ (occStep acc a).current_occupancy
        ∧ a.current_occupancy ≤ (occStep acc a).current_occupancy := by
      unfold occStep
      by_cases hgt : a.current_occupancy > acc.current_occupancy
      · rw [if_pos hgt]
        exact ⟨le_of_lt hgt, le_refl _⟩
      · rw [if_neg hgt]
        exact ⟨le_refl _, le_of_not_lt hgt⟩
    refine ⟨le_trans hstep.1 h1, ?_⟩
    intro c hcmem
    rcases List.mem_cons.mp hcmem with rfl | hmem
    · exact le_trans hstep.2 h1
    · exact h2 c hmem

/-- C8: the report aggregates equal recomputation over the full current
record set — camp count, victim count, summed food and kit counters and the
critical count — and the busiest camp is a camp of maximal occupancy,
absent exactly when there are no camps. -/
theorem report_aggregates (db : DB) :
    (report db).total_camps = db.camps.length
    ∧ (report db).total_victims = db.victims.length
    ∧ (report db).total_food = (db.victims.map (fun v => v.food_distributed)).sum
    ∧ (report db).total_medical_kits
        = (db.victims.map (fun v => v.medical_kits_distributed)).sum
    ∧ (report db).critical_victims = db.victims.countP (fun v => v.is_critical)
    ∧ ((report db).busiest_camp = none ↔ db.camps = [])
    ∧ (∀ b, (report db).busiest_camp = some b →
        b ∈ db.camps ∧ ∀ c ∈ db.camps, c.current_occupancy ≤ b.current_occupancy) := by
  have hbusy : (report db).busiest_camp = max_by_occupancy db.camps := rfl
  refine ⟨rfl, rfl, rfl, rfl, ?_, ?_, ?_⟩
  · show (db.victims.filter (fun v => v.is_critical)).length = _
    rw [List.countP_eq_length_filter]
  · rw [hbusy]
    cases hcamps : db.camps with
    | nil => simp [max_by_occupancy]
    | cons a t => simp [max_by_occupancy]
  · intro b hb
    rw [hbusy] at hb
    cases hcamps : db.camps with
    | nil =>
      rw [hcamps] at hb
      exact absurd hb (by simp [max_by_occupancy])
    | cons a t =>
      rw [hcamps] at hb
      have hb' : t.foldl occStep a = b := by
        have := hb
        unfold max_by_occupancy at this
        exact Option.some.inj this
      constructor
      · rw [← hb']
        rcases foldl_occStep_mem t a with h | h
        · rw [h]
          exact List.mem_cons_self a t
        · exact List.mem_cons_of_mem a h
      · intro c hcmem
        obtain ⟨h1, h2⟩ := foldl_occStep_ge t a
        rw [← hb']
        rcases List.mem_cons.mp hcmem with rfl | hmem
        · exact h1
        · exact h2 c hmem

/-- C8 witness: on the concrete store `dbA` the busiest camp is `campA`,
which is a camp of maximal occupancy. -/
theorem report_aggregates_witness :
    campA ∈ dbA.camps
    ∧ ∀ c ∈ dbA.camps, c.current_occupancy ≤ campA.current_occupancy := by
  obtain ⟨_, _, _, _, _, _, h7⟩ := report_aggregates dbA
  exact h7 campA rfl

/-- Camp lookups are unchanged by `create_victim`. -/
theorem get_camp_create_victim (db : DB) (name : String) (age : Int)
    (health_condition : String) (cid cid' : Nat) :
    get_camp (create_victim db name age health_condition cid).2 cid'
      = get_camp db cid' := rfl

/-- Re-fetching the victim row just inserted by `create_victim` returns that
row, provided no stored row already carries the fresh autoincrement id. -/
theorem get_victim_create (db : DB) (name : String) (age : Int)
    (health_condition : String) (cid : Nat)
    (hfresh : ∀ w ∈ db.victims, w.victim_id ≠ db.nextVictimId) :
    get_victim (create_victim db name age health_condition cid).2
        (create_victim db name age health_condition cid).1
      = some { victim_id := db.nextVictimId, name := name, age := age,
               health_condition := health_condition,
               assigned_camp_id := some cid,
               food_distributed := 0, medical_kits_distributed := 0 } := by
  show (db.victims ++
      [({ victim_id := db.nextVictimId, name := name, age := age,
          health_condition := health_condition,
          assigned_camp_id := some cid,
          food_distributed := 0, medical_kits_distributed := 0 } : Victim)]).find?
      (fun v => v.victim_id == db.nextVictimId) = _
  rw [List.find?_append]
  have hnone : db.victims.find? (fun v => v.victim_id == db.nextVictimId) = none :=
    List.find?_eq_none.mpr (fun v hv => by simpa using hfresh v hv)
  rw [hnone, Option.none_or, List.find?_cons_of_pos _ (by simp)]

/-- C3: starting from a camp holding one food unit, one medical kit and zero
occupancy, registering a critical victim succeeds with one unit of each
granted: occupancy becomes 1, both stocks drop to 0, and the new victim row
carries counters 1 and 1; an immediately following manual distribution for
the same victim grants nothing, emits the no-food warning and the
critical-shortage warning, and leaves the whole store unchanged. -/
theorem register_then_redistribute_scenario (db : DB) (name : String) (age : Int)
    (cid : Nat) (camp : Camp)
    (hfresh : ∀ w ∈ db.victims, w.victim_id ≠ db.nextVictimId)
    (hc : get_camp db cid = some camp)
    (hfood : camp.available_food = 1)
    (hkits : camp.available_medical_kits = 1)
    (hocc : camp.current_occupancy = 0)
    (hcap : 0 < camp.max_capacity)
    (hname : name ≠ "")
    (hage1 : 0 < age) (hage2 : age ≤ 120) :
    ∃ db1,
      register_victim db name age "critical" cid
        = (.success db.nextVictimId 1 1 [], db1)
      ∧ (∃ c1, get_camp db1 cid = some c1
          ∧ c1.available_food = 0 ∧ c1.available_medical_kits = 0
          ∧ c1.current_occupancy = 1)
      ∧ (∃ v1, get_victim db1 db.nextVictimId = some v1
          ∧ v1.food_distributed = 1 ∧ v1.medical_kits_distributed = 1)
      ∧ do_distribute db1 db.nextVictimId
          = (some (0, 0, [noFoodWarning, criticalShortageWarning]), db1) := by
  have hcid : camp.camp_id = cid := by
    have h : db.camps.find? (fun c => c.camp_id == cid) = some camp := hc
    simpa using List.find?_some h
  have hgcX : get_camp (create_victim (update_camp_resources db cid 0 0 1)
        name age "critical" cid).2 cid
      = some { camp_id := cid, location := camp.location,
               max_capacity := camp.max_capacity, available_food := 1,
               available_medical_kits := 1, volunteers := camp.volunteers,
               current_occupancy := 1 } := by
    rw [get_camp_create_victim, get_camp_update_self, hc, Option.map_some']
    simp [hcid, hfood, hkits, hocc]
  have hgv : get_victim (create_victim (update_camp_resources db cid 0 0 1)
        name age "critical" cid).2 db.nextVictimId
      = some { victim_id := db.nextVictimId, name := name, age := age,
               health_condition := "critical", assigned_camp_id := some cid,
               food_distributed := 0, medical_kits_distributed := 0 } :=
    get_victim_create (update_camp_resources db cid 0 0 1) name age "critical" cid hfresh
  have hdist1 : distribute_resources
      { victim_id := db.nextVictimId, name := name, age := age,
        health_condition := "critical", assigned_camp_id := some cid,
        food_distributed := 0, medical_kits_distributed := 0 }
      { camp_id := cid, location := camp.location,
        max_capacity := camp.max_capacity, available_food := 1,
        available_medical_kits := 1, volunteers := camp.volunteers,
        current_occupancy := 1 }
      (create_victim (update_camp_resources db cid 0 0 1) name age "critical" cid).2
      = (1, 1, [],
         update_victim_distributions
           (update_camp_resources
             (create_victim (update_camp_resources db cid 0 0 1) name age "critical" cid).2
             cid (-1) (-1) 0)
           db.nextVictimId 1 1) := by
    unfold distribute_resources
    norm_num [Victim.is_critical]
  have hAge : ¬ (age ≤ 0 ∨ age > 120) := by omega
  have hHealth : ¬ (("critical" : String) ≠ "normal" ∧ ("critical" : String) ≠ "critical") := by
    simp
  have hNotFull : ¬ camp.is_full = true := by
    simp only [Camp.is_full, decide_eq_true_eq, not_le, hocc]
    omega
  have hCV1 : (create_victim (update_camp_resources db cid 0 0 1)
      name age "critical" cid).1 = db.nextVictimId := rfl
  refine ⟨update_victim_distributions
      (update_camp_resources
        (create_victim (update_camp_resources db cid 0 0 1) name age "critical" cid).2
        cid (-1) (-1) 0)
      db.nextVictimId 1 1, ?_, ?_, ?_, ?_⟩
  · simp only [register_victim, if_neg hname, if_neg hAge, if_neg hHealth, hc,
      if_neg hNotFull, hgv, hgcX, hdist1, hCV1]
  · rw [get_camp_update_victim, get_camp_update_self, hgcX, Option.map_some']
    exact ⟨_, rfl, by norm_num, by norm_num, by norm_num⟩
  · rw [get_victim_update_self, get_victim_update_camp, hgv, Option.map_some']
    exact ⟨_, rfl, by norm_num, by norm_num⟩
  · have hvF : get_victim (update_victim_distributions
        (update_camp_resources
          (create_victim (update_camp_resources db cid 0 0 1) name age "critical" cid).2
          cid (-1) (-1) 0)
        db.nextVictimId 1 1) db.nextVictimId
        = some { victim_id := db.nextVictimId, name := name, age := age,
                 health_condition := "critical", assigned_camp_id := some cid,
                 food_distributed := 1, medical_kits_distributed := 1 } := by
      rw [get_victim_update_self, get_victim_update_camp, hgv, Option.map_some']
      norm_num
    have hcF : get_camp (update_victim_distributions
        (update_camp_resources
          (create_victim (update_camp_resources db cid 0 0 1) name age "critical" cid).2
          cid (-1) (-1) 0)
        db.nextVictimId 1 1) cid
        = some { camp_id := cid, location := camp.location,
                 max_capacity := camp.max_capacity, available_food := 0,
                 available_medical_kits := 0, volunteers := camp.volunteers,
                 current_occupancy := 1 } := by
      rw [get_camp_update_victim, get_camp_update_self, hgcX, Option.map_some']
      norm_num
    have hdist2 : distribute_resources
        { victim_id := db.nextVictimId, name := name, age := age,
          health_condition := "critical", assigned_camp_id := some cid,
          food_distributed := 1, medical_kits_distributed := 1 }
        { camp_id := cid, location := camp.location,
          max_capacity := camp.max_capacity, available_food := 0,
          available_medical_kits := 0, volunteers := camp.volunteers,
          current_occupancy := 1 }
        (update_victim_distributions
          (update_camp_resources
            (create_victim (update_camp_resources db cid 0 0 1) name age "critical" cid).2
            cid (-1) (-1) 0)
          db.nextVictimId 1 1)
        = (0, 0, [noFoodWarning, criticalShortageWarning],
           update_victim_distributions
             (update_camp_resources
               (create_victim (update_camp_resources db cid 0 0 1) name age "critical" cid).2
               cid (-1) (-1) 0)
             db.nextVictimId 1 1) := by
      unfold distribute_resources
      norm_num [Victim.is_critical, update_camp_resources_zero,
        update_victim_distributions_zero]
    simp only [do_distribute, hvF, hcF, hdist2]

/-- C3 witness: the scenario instantiated on the concrete store `dbA`, whose
camp `campA` holds one food unit, one kit and zero occupancy. -/
theorem register_then_redistribute_scenario_witness :
    ∃ db1,
      register_victim dbA "Eve" 25 "critical" 1
        = (.success dbA.nextVictimId 1 1 [], db1)
      ∧ (∃ c1, get_camp db1 1 = some c1
          ∧ c1.available_food = 0 ∧ c1.available_medical_kits = 0
          ∧ c1.current_occupancy = 1)
      ∧ (∃ v1, get_victim db1 dbA.nextVictimId = some v1
          ∧ v1.food_distributed = 1 ∧ v1.medical_kits_distributed = 1)
      ∧ do_distribute db1 dbA.nextVictimId
          = (some (0, 0, [noFoodWarning, criticalShortageWarning]), db1) :=
  register_then_redistribute_scenario dbA "Eve" 25 1 campA
    (by decide) rfl rfl rfl rfl (by decide) (by decide) (by decide) (by decide)

end DisasterRelief
